import Mathlib

/-!
Shallow embedding of the offer-negotiation engine of the
outdoor-marketplace backend (src/models/Offer.js, src/routes/offers.js,
src/models/Product.js).

Conventions of the embedding:
* Document ids (users, listings, offers) are `Nat`.
* Timestamps are `Nat` milliseconds since the epoch (`Date.now()`).
* Currency amounts are `Nat` (the code only compares and copies them).
* A JavaScript number field that may be absent is `Option Nat`; JS
  truthiness tests (`if (this.autoAcceptPrice)`) treat both an absent
  value and `0` as false, captured by `optTruthy`.
* Each route handler is a total function from the relevant documents
  (the offers collection and the looked-up listing) and request data to
  a response together with the state of the documents when the handler
  returns.  Every `await doc.save()` commits immediately, so state
  reached before a later failure is kept, exactly as in the source
  (there is no cross-document transaction).
* Mongoose `pre('save')` middleware and validation run on `save()` but
  NOT on `updateMany` (mongoose query updates bypass document
  middleware); `saveOffer` models the document save pipeline of
  Offer.js, and the `Offer.updateMany` in the accept route is a plain
  field update on the collection.
* Mongoose marks schema-default values as `default`, not `modify`, so
  `isModified('status')` is false for a newly constructed offer whose
  status was never assigned; each call to `saveOffer` therefore passes
  `statusModified` according to whether the handler assigned `status`
  before saving.
-/

namespace Marketplace

/-- Offer.js `status` enum: `['pending', 'accepted', 'declined',
'countered', 'expired', 'withdrawn']`. -/
inductive OfferStatus where
  | pending | accepted | declined | countered | expired | withdrawn
deriving DecidableEq, Repr, Fintype

/-- Offer.js history `action` enum: `['created', 'countered',
'accepted', 'declined', 'expired', 'withdrawn']` (note: no `pending`). -/
inductive HistoryAction where
  | created | countered | accepted | declined | expired | withdrawn
deriving DecidableEq, Repr

/-- Product.js `status` enum: `['available', 'pending', 'sold',
'inactive', 'removed']`. -/
inductive ListingStatus where
  | available | pending | sold | inactive | removed
deriving DecidableEq, Repr

/-- One entry of Offer.js `history` (`by` is rendered `actorId`). -/
structure HistoryEntry where
  action : HistoryAction
  amount : Option Nat
  message : Option String
  timestamp : Nat
  actorId : Nat
deriving DecidableEq, Repr

/-- Offer.js `counterOffer` subdocument `{amount, message, timestamp}`. -/
structure CounterOffer where
  amount : Nat
  message : Option String
  timestamp : Nat
deriving DecidableEq, Repr

/-- The Offer document (src/models/Offer.js). -/
structure Offer where
  id : Nat
  listing : Nat
  buyer : Nat
  seller : Nat
  offerAmount : Nat
  originalPrice : Nat
  message : Option String
  status : OfferStatus
  counterOffer : Option CounterOffer
  expiresAt : Nat
  acceptedAt : Option Nat
  declinedAt : Option Nat
  autoAcceptPrice : Option Nat
  minimumOffer : Option Nat
  history : List HistoryEntry
  createdAt : Nat
deriving DecidableEq, Repr

/-- The fields of the Product document (src/models/Product.js) that the
offer routes read and write. -/
structure Listing where
  id : Nat
  seller : Nat
  price : Nat
  acceptsOffers : Bool
  minimumOffer : Option Nat
  autoAcceptPrice : Option Nat
  status : ListingStatus
  soldTo : Option Nat
  soldPrice : Option Nat
  soldAt : Option Nat
deriving DecidableEq, Repr

/-- JS truthiness of an optional numeric field: absent, and present but
`0`, are both falsy. -/
def optTruthy : Option Nat → Bool
  | none => false
  | some n => n != 0

/-- Result of `offerSchema.methods.checkAutoResponse`. -/
inductive AutoResponse where
  | accept | decline
deriving DecidableEq, Repr

/-- Offer.js `checkAutoResponse`:
```
if (this.status !== 'pending') return null;
if (this.autoAcceptPrice && this.offerAmount >= this.autoAcceptPrice) return 'accept';
if (this.minimumOffer && this.offerAmount < this.minimumOffer) return 'decline';
return null;
```
-/
def checkAutoResponse (o : Offer) : Option AutoResponse :=
  if o.status ≠ OfferStatus.pending then none
  else if optTruthy o.autoAcceptPrice && decide (o.offerAmount ≥ o.autoAcceptPrice.getD 0)
    then some AutoResponse.accept
  else if optTruthy o.minimumOffer && decide (o.offerAmount < o.minimumOffer.getD 0)
    then some AutoResponse.decline
  else none

/-- Offer.js `isExpired`:
`this.status === 'pending' && new Date() > this.expiresAt`. -/
def isExpired (now : Nat) (o : Offer) : Bool :=
  decide (o.status = OfferStatus.pending) && decide (now > o.expiresAt)

/-- The history `action` value the pre-save hook would store for a given
status (`action: this.status`).  `pending` is not a member of the
history action enum, so storing it would fail enum validation. -/
def statusToAction : OfferStatus → Option HistoryAction
  | OfferStatus.pending => none
  | OfferStatus.accepted => some HistoryAction.accepted
  | OfferStatus.declined => some HistoryAction.declined
  | OfferStatus.countered => some HistoryAction.countered
  | OfferStatus.expired => some HistoryAction.expired
  | OfferStatus.withdrawn => some HistoryAction.withdrawn

/-- The entry pushed by the `pre('save')` hook of Offer.js:
```
amount:  this.status === 'countered' ? this.counterOffer?.amount : this.offerAmount,
message: this.status === 'countered' ? this.counterOffer?.message : this.message,
by:      this.status === 'countered' ? this.seller : this.buyer
```
-/
def hookEntry (o : Offer) (a : HistoryAction) (now : Nat) : HistoryEntry :=
  { action := a
    amount := if o.status = OfferStatus.countered
      then o.counterOffer.map (fun c => c.amount) else some o.offerAmount
    message := if o.status = OfferStatus.countered
      then o.counterOffer.bind (fun c => c.message) else o.message
    timestamp := now
    actorId := if o.status = OfferStatus.countered then o.seller else o.buyer }

/-- Schema validation relevant to the routes: `offerAmount` has
`min: 1`. -/
def validOffer (o : Offer) : Bool := decide (1 ≤ o.offerAmount)

/-- `await offer.save()`: run the `pre('save')` history hook (only when
the `status` path was marked modified), then validate.  `none` models a
rejected save (nothing written). -/
def saveOffer (o : Offer) (statusModified : Bool) (now : Nat) : Option Offer :=
  if statusModified then
    match statusToAction o.status with
    | none => none
    | some a =>
      let o' := { o with history := o.history ++ [hookEntry o a now] }
      if validOffer o' then some o' else none
  else
    if validOffer o then some o else none

/-- One hour in milliseconds. -/
def hourMs : Nat := 60 * 60 * 1000

/-- `Math.ceil(24 - hoursSinceOffer)` of the cooldown message, where
`hoursSinceOffer` is the real number `elapsedMs / 3600000`; exact for
`elapsedMs ≤ 24` hours, the only range in which it is evaluated. -/
def waitHoursLeft (elapsedMs : Nat) : Nat :=
  (24 * hourMs - elapsedMs + (hourMs - 1)) / hourMs

/-- The `Offer.findOne({listing: listingId, buyer: buyerId, status:
'pending'})` filter of the create route. -/
def existingPendingPred (lid bid : Nat) (o : Offer) : Bool :=
  decide (o.listing = lid) && decide (o.buyer = bid)
    && decide (o.status = OfferStatus.pending)

/-- The `new Offer({...})` document built by the create route: request
fields, thresholds snapshotted from the listing, plus schema defaults
(`status: 'pending'`, `expiresAt: now + 48h`, empty history). -/
def newOffer (newId lid bid sellerId amt : Nat) (msg : Option String)
    (originalPrice : Nat) (aap mo : Option Nat) (now : Nat) : Offer :=
  { id := newId, listing := lid, buyer := bid, seller := sellerId,
    offerAmount := amt, originalPrice := originalPrice, message := msg,
    status := OfferStatus.pending, counterOffer := none,
    expiresAt := now + 48 * hourMs, acceptedAt := none, declinedAt := none,
    autoAcceptPrice := aap, minimumOffer := mo, history := [], createdAt := now }

/-- Response of POST /api/offers. -/
inductive CreateResponse where
  | created (autoResponse : Option AutoResponse)
  | errListingNotFound
  | errListingUnavailable
  | errNoOffers
  | errSelfOffer
  | errWait (hoursLeft : Nat)
  | errServer
deriving DecidableEq, Repr

/-- Response plus document state when POST /api/offers returns. -/
structure CreateST where
  resp : CreateResponse
  offers : List Offer
  listing? : Option Listing
deriving DecidableEq, Repr

/-- Core of the create route after the existing-offer check (lines
57-154 of src/routes/offers.js): build the offer, evaluate
`checkAutoResponse`, apply the matching branch.  In the accept branch
the listing is saved before the notification, and in every branch the
notification precedes the final `offer.save()`, so a notification
failure keeps the listing update but never persists the offer. -/
def createOfferCore (offers : List Offer) (listing : Listing)
    (listingId buyerId amt : Nat) (msg : Option String)
    (now newId : Nat) (notifyOk : Bool) : CreateST :=
  let o0 := newOffer newId listingId buyerId listing.seller amt msg listing.price
      listing.autoAcceptPrice listing.minimumOffer now
  match checkAutoResponse o0 with
  | some AutoResponse.accept =>
    let o1 := { o0 with status := OfferStatus.accepted, acceptedAt := some now }
    let listing1 := { listing with
      status := ListingStatus.sold
      soldTo := some buyerId
      soldPrice := some amt }
    if notifyOk then
      match saveOffer o1 true now with
      | some oS =>
        ⟨CreateResponse.created (some AutoResponse.accept), offers ++ [oS], some listing1⟩
      | none => ⟨CreateResponse.errServer, offers, some listing1⟩
    else ⟨CreateResponse.errServer, offers, some listing1⟩
  | some AutoResponse.decline =>
    let o1 := { o0 with status := OfferStatus.declined, declinedAt := some now }
    if notifyOk then
      match saveOffer o1 true now with
      | some oS =>
        ⟨CreateResponse.created (some AutoResponse.decline), offers ++ [oS], some listing⟩
      | none => ⟨CreateResponse.errServer, offers, some listing⟩
    else ⟨CreateResponse.errServer, offers, some listing⟩
  | none =>
    if notifyOk then
      match saveOffer o0 false now with
      | some oS => ⟨CreateResponse.created none, offers ++ [oS], some listing⟩
      | none => ⟨CreateResponse.errServer, offers, some listing⟩
    else ⟨CreateResponse.errServer, offers, some listing⟩

/-- POST /api/offers (src/routes/offers.js lines 13-160).  `listing?` is
the result of `Product.findById(listingId)`; `notifyOk` tells whether
the `Conversation.findOrCreate` / `Message.create` notification step
succeeds. -/
def createOffer (offers : List Offer) (listing? : Option Listing)
    (listingId buyerId amt : Nat) (msg : Option String)
    (now newId : Nat) (notifyOk : Bool) : CreateST :=
  match listing? with
  | none => ⟨CreateResponse.errListingNotFound, offers, none⟩
  | some listing =>
    if listing.status ≠ ListingStatus.available then
      ⟨CreateResponse.errListingUnavailable, offers, some listing⟩
    else if !listing.acceptsOffers then
      ⟨CreateResponse.errNoOffers, offers, some listing⟩
    else if listing.seller = buyerId then
      ⟨CreateResponse.errSelfOffer, offers, some listing⟩
    else
      match offers.find? (existingPendingPred listingId buyerId) with
      | some existing =>
        if now - existing.createdAt < 24 * hourMs then
          ⟨CreateResponse.errWait (waitHoursLeft (now - existing.createdAt)),
            offers, some listing⟩
        else
          match saveOffer { existing with status := OfferStatus.withdrawn } true now with
          | none => ⟨CreateResponse.errServer, offers, some listing⟩
          | some exW =>
            createOfferCore (offers.map fun o => if o.id = existing.id then exW else o)
              listing listingId buyerId amt msg now newId notifyOk
      | none => createOfferCore offers listing listingId buyerId amt msg now newId notifyOk

/-- Response of PUT /api/offers/:id/accept. -/
inductive AcceptResponse where
  | success
  | errNotFound
  | errNotAuthorized
  | errNotPending
  | errExpired
  | errServer
deriving DecidableEq, Repr

/-- Response plus document state when PUT /:id/accept returns. -/
structure AcceptST where
  resp : AcceptResponse
  offers : List Offer
  listing? : Option Listing
deriving DecidableEq, Repr

/-- Replace the stored offer with the given id by the saved document
(the store writes by `_id`). -/
def putOffer (offers : List Offer) (oid : Nat) (o' : Offer) : List Offer :=
  offers.map fun o => if o.id = oid then o' else o

/-- The `Offer.updateMany({listing, status: 'pending', _id: {$ne:
offerId}}, {status: 'declined', declinedAt})` of the accept route.
Query updates bypass document middleware, so no history entry is
appended to the updated offers. -/
def declineSiblings (offers : List Offer) (lid exceptId now : Nat) : List Offer :=
  offers.map fun o =>
    if decide (o.listing = lid) && decide (o.status = OfferStatus.pending)
        && decide (o.id ≠ exceptId)
      then { o with status := OfferStatus.declined, declinedAt := some now }
      else o

/-- PUT /api/offers/:id/accept (src/routes/offers.js lines 231-312).
`listing?` is the populated `offer.listing`; `notifyOk` tells whether
the notification step succeeds (its failure lands in the catch handler,
after every document write has already committed). -/
def acceptOffer (offers : List Offer) (listing? : Option Listing)
    (offerId actorId now : Nat) (notifyOk : Bool) : AcceptST :=
  match offers.find? (fun o => decide (o.id = offerId)) with
  | none => ⟨AcceptResponse.errNotFound, offers, listing?⟩
  | some offer =>
    if offer.seller ≠ actorId then ⟨AcceptResponse.errNotAuthorized, offers, listing?⟩
    else if offer.status ≠ OfferStatus.pending then
      ⟨AcceptResponse.errNotPending, offers, listing?⟩
    else if isExpired now offer then
      match saveOffer { offer with status := OfferStatus.expired } true now with
      | some oS => ⟨AcceptResponse.errExpired, putOffer offers offerId oS, listing?⟩
      | none => ⟨AcceptResponse.errServer, offers, listing?⟩
    else
      match saveOffer { offer with
          status := OfferStatus.accepted
          acceptedAt := some now } true now with
      | none => ⟨AcceptResponse.errServer, offers, listing?⟩
      | some oS =>
        let offers1 := putOffer offers offerId oS
        match listing? with
        | none => ⟨AcceptResponse.errServer, offers1, none⟩
        | some listing =>
          let listing1 := { listing with
            status := ListingStatus.sold
            soldTo := some offer.buyer
            soldPrice := some offer.offerAmount
            soldAt := some now }
          let offers2 := declineSiblings offers1 listing.id offer.id now
          if notifyOk then ⟨AcceptResponse.success, offers2, some listing1⟩
          else ⟨AcceptResponse.errServer, offers2, some listing1⟩

/-- Response of PUT /api/offers/:id/counter. -/
inductive CounterResponse where
  | success
  | errNotFound
  | errNotAuthorized
  | errNotPending
  | errTooLow
  | errExceedsPrice
  | errServer
deriving DecidableEq, Repr

/-- Response plus document state when PUT /:id/counter returns. -/
structure CounterST where
  resp : CounterResponse
  offers : List Offer
deriving DecidableEq, Repr

/-- PUT /api/offers/:id/counter (src/routes/offers.js lines 375-448). -/
def counterOffer (offers : List Offer) (offerId actorId counterAmount : Nat)
    (counterMessage : Option String) (now : Nat) (notifyOk : Bool) : CounterST :=
  match offers.find? (fun o => decide (o.id = offerId)) with
  | none => ⟨CounterResponse.errNotFound, offers⟩
  | some offer =>
    if offer.seller ≠ actorId then ⟨CounterResponse.errNotAuthorized, offers⟩
    else if offer.status ≠ OfferStatus.pending then ⟨CounterResponse.errNotPending, offers⟩
    else if counterAmount ≤ offer.offerAmount then ⟨CounterResponse.errTooLow, offers⟩
    else if counterAmount > offer.originalPrice then ⟨CounterResponse.errExceedsPrice, offers⟩
    else
      match saveOffer { offer with
          status := OfferStatus.countered
          counterOffer := some ⟨counterAmount, counterMessage, now⟩
          expiresAt := now + 48 * hourMs } true now with
      | none => ⟨CounterResponse.errServer, offers⟩
      | some oS =>
        if notifyOk then ⟨CounterResponse.success, putOffer offers offerId oS⟩
        else ⟨CounterResponse.errServer, putOffer offers offerId oS⟩

/-- Response of PUT /api/offers/:id/respond-counter. -/
inductive RespondResponse where
  | counterAccepted
  | counterDeclined
  | errNotFound
  | errNotAuthorized
  | errNoCounter
  | errServer
deriving DecidableEq, Repr

/-- Response plus document state when PUT /:id/respond-counter returns. -/
structure RespondST where
  resp : RespondResponse
  offers : List Offer
  listing? : Option Listing
deriving DecidableEq, Repr

/-- PUT /api/offers/:id/respond-counter (src/routes/offers.js lines
486-557).  On `accept = true`, `offerAmount` becomes the counter amount
and the listing is sold at it; the decline branch sends no
notification. -/
def respondCounter (offers : List Offer) (listing? : Option Listing)
    (offerId actorId : Nat) (accept : Bool) (now : Nat) (notifyOk : Bool) : RespondST :=
  match offers.find? (fun o => decide (o.id = offerId)) with
  | none => ⟨RespondResponse.errNotFound, offers, listing?⟩
  | some offer =>
    if offer.buyer ≠ actorId then ⟨RespondResponse.errNotAuthorized, offers, listing?⟩
    else if offer.status ≠ OfferStatus.countered then
      ⟨RespondResponse.errNoCounter, offers, listing?⟩
    else if accept then
      match offer.counterOffer with
      | none => ⟨RespondResponse.errServer, offers, listing?⟩
      | some c =>
        match saveOffer { offer with
            status := OfferStatus.accepted
            acceptedAt := some now
            offerAmount := c.amount } true now with
        | none => ⟨RespondResponse.errServer, offers, listing?⟩
        | some oS =>
          let offers1 := putOffer offers offerId oS
          match listing? with
          | none => ⟨RespondResponse.errServer, offers1, none⟩
          | some listing =>
            let listing1 := { listing with
              status := ListingStatus.sold
              soldTo := some offer.buyer
              soldPrice := some c.amount
              soldAt := some now }
            if notifyOk then ⟨RespondResponse.counterAccepted, offers1, some listing1⟩
            else ⟨RespondResponse.errServer, offers1, some listing1⟩
    else
      match saveOffer { offer with
          status := OfferStatus.declined
          declinedAt := some now } true now with
      | none => ⟨RespondResponse.errServer, offers, listing?⟩
      | some oS => ⟨RespondResponse.counterDeclined, putOffer offers offerId oS, listing?⟩

/-! ## General lemmas about the embedded operations -/

theorem optTruthy_some (a : Nat) (h : a ≠ 0) : optTruthy (some a) = true := by
  simp [optTruthy, h]

theorem checkAutoResponse_accept (o : Offer) (a : Nat)
    (hs : o.status = OfferStatus.pending) (hap : o.autoAcceptPrice = some a)
    (ha : a ≠ 0) (hge : a ≤ o.offerAmount) :
    checkAutoResponse o = some AutoResponse.accept := by
  simp [checkAutoResponse, hs, hap, optTruthy, ha, hge]

theorem checkAutoResponse_decline (o : Offer) (m : Nat)
    (hs : o.status = OfferStatus.pending)
    (hmo : o.minimumOffer = some m) (hm : m ≠ 0) (hlt : o.offerAmount < m)
    (hnoaa : ∀ a, o.autoAcceptPrice = some a → a ≠ 0 → o.offerAmount < a) :
    checkAutoResponse o = some AutoResponse.decline := by
  cases hap : o.autoAcceptPrice with
  | none => simp [checkAutoResponse, hs, hap, optTruthy, hmo, hm, hlt]
  | some a =>
    by_cases h0 : a = 0
    · simp [checkAutoResponse, hs, hap, optTruthy, h0, hmo, hm, hlt]
    · have hlt' := hnoaa a hap h0
      simp [checkAutoResponse, hs, hap, optTruthy, h0, hmo, hm, hlt,
        Nat.not_le.mpr hlt']

theorem saveOffer_statusModified (o : Offer) (a : HistoryAction) (now : Nat)
    (hact : statusToAction o.status = some a) (hval : 1 ≤ o.offerAmount) :
    saveOffer o true now = some { o with history := o.history ++ [hookEntry o a now] } := by
  simp [saveOffer, hact, validOffer, hval]

theorem saveOffer_not_statusModified (o : Offer) (now : Nat) (hval : 1 ≤ o.offerAmount) :
    saveOffer o false now = some o := by
  simp [saveOffer, validOffer, hval]

theorem putOffer_mem_other (offers : List Offer) (oid : Nat) (o' p : Offer)
    (hp : p ∈ offers) (hne : p.id ≠ oid) : p ∈ putOffer offers oid o' := by
  have h := List.mem_map_of_mem (fun x => if x.id = oid then o' else x) hp
  simpa [putOffer, hne] using h

theorem putOffer_mem_self (offers : List Offer) (oid : Nat) (o o' : Offer)
    (ho : o ∈ offers) (hid : o.id = oid) : o' ∈ putOffer offers oid o' := by
  have h := List.mem_map_of_mem (fun x => if x.id = oid then o' else x) ho
  simpa [putOffer, hid] using h

theorem find?_putOffer (offers : List Offer) (oid : Nat) (o o' : Offer)
    (hfind : offers.find? (fun x => decide (x.id = oid)) = some o)
    (hid : o'.id = oid) :
    (putOffer offers oid o').find? (fun x => decide (x.id = oid)) = some o' := by
  induction offers with
  | nil => simp at hfind
  | cons a l ih =>
    by_cases h : a.id = oid
    · simp [putOffer, h, hid]
    · rw [List.find?_cons_of_neg _ (by simpa using h)] at hfind
      have := ih hfind
      simpa [putOffer, h, List.find?_cons_of_neg] using this

theorem declineSiblings_mem_decline (offers : List Offer) (lid exceptId now : Nat)
    (p : Offer) (hp : p ∈ offers) (hl : p.listing = lid)
    (hs : p.status = OfferStatus.pending) (hne : p.id ≠ exceptId) :
    { p with status := OfferStatus.declined, declinedAt := some now }
      ∈ declineSiblings offers lid exceptId now := by
  have h := List.mem_map_of_mem (fun o =>
    if decide (o.listing = lid) && decide (o.status = OfferStatus.pending)
        && decide (o.id ≠ exceptId)
      then { o with status := OfferStatus.declined, declinedAt := some now }
      else o) hp
  simpa [declineSiblings, hl, hs, hne] using h

theorem declineSiblings_mem_other (offers : List Offer) (lid exceptId now : Nat)
    (p : Offer)
    (hp : p ∈ offers)
    (h : ¬(p.listing = lid ∧ p.status = OfferStatus.pending ∧ p.id ≠ exceptId)) :
    p ∈ declineSiblings offers lid exceptId now := by
  have hmem := List.mem_map_of_mem (fun o =>
    if decide (o.listing = lid) && decide (o.status = OfferStatus.pending)
        && decide (o.id ≠ exceptId)
      then { o with status := OfferStatus.declined, declinedAt := some now }
      else o) hp
  have h' : ¬((p.listing = lid ∧ p.status = OfferStatus.pending) ∧ ¬p.id = exceptId) := by
    intro hc
    exact h ⟨hc.1.1, hc.1.2, hc.2⟩
  simpa [declineSiblings, h'] using hmem

theorem find?_id_eq (offers : List Offer) (oid : Nat) (o : Offer)
    (hfind : offers.find? (fun x => decide (x.id = oid)) = some o) :
    o.id = oid := by
  have := List.find?_some hfind
  simpa using this

theorem find?_mem (offers : List Offer) (oid : Nat) (o : Offer)
    (hfind : offers.find? (fun x => decide (x.id = oid)) = some o) :
    o ∈ offers :=
  List.mem_of_find?_eq_some hfind

theorem createOffer_guards (offers : List Offer) (L : Listing)
    (lid bid amt : Nat) (msg : Option String) (now newId : Nat) (notifyOk : Bool)
    (havail : L.status = ListingStatus.available) (hacc : L.acceptsOffers = true)
    (hself : L.seller ≠ bid)
    (hnoex : offers.find? (existingPendingPred lid bid) = none) :
    createOffer offers (some L) lid bid amt msg now newId notifyOk
      = createOfferCore offers L lid bid amt msg now newId notifyOk := by
  simp [createOffer, havail, hacc, hself, hnoex]

theorem createOfferCore_accept (offers : List Offer) (L : Listing)
    (lid bid amt : Nat) (msg : Option String) (now newId : Nat)
    (hauto : checkAutoResponse (newOffer newId lid bid L.seller amt msg L.price
        L.autoAcceptPrice L.minimumOffer now) = some AutoResponse.accept)
    (hamt1 : 1 ≤ amt) :
    ∃ oS, createOfferCore offers L lid bid amt msg now newId true =
        ⟨CreateResponse.created (some AutoResponse.accept), offers ++ [oS],
          some { L with
            status := ListingStatus.sold
            soldTo := some bid
            soldPrice := some amt }⟩ ∧
      oS.status = OfferStatus.accepted ∧ oS.offerAmount = amt ∧ oS.buyer = bid ∧
      oS.listing = lid ∧ oS.acceptedAt = some now ∧ oS.history.length = 1 := by
  simp only [createOfferCore]
  split
  case _ heq =>
    simp only [saveOffer, statusToAction, validOffer, newOffer, hamt1,
      decide_True, if_true]
    exact ⟨_, rfl, rfl, rfl, rfl, rfl, rfl, rfl⟩
  case _ heq => rw [hauto] at heq; exact absurd heq (by simp)
  case _ heq => rw [hauto] at heq; exact absurd heq (by simp)

theorem createOfferCore_decline (offers : List Offer) (L : Listing)
    (lid bid amt : Nat) (msg : Option String) (now newId : Nat)
    (hauto : checkAutoResponse (newOffer newId lid bid L.seller amt msg L.price
        L.autoAcceptPrice L.minimumOffer now) = some AutoResponse.decline)
    (hamt1 : 1 ≤ amt) :
    ∃ oS, createOfferCore offers L lid bid amt msg now newId true =
        ⟨CreateResponse.created (some AutoResponse.decline), offers ++ [oS], some L⟩ ∧
      oS.status = OfferStatus.declined ∧ oS.offerAmount = amt ∧ oS.buyer = bid ∧
      oS.listing = lid ∧ oS.declinedAt = some now ∧ oS.history.length = 1 := by
  simp only [createOfferCore]
  split
  case _ heq => rw [hauto] at heq; exact absurd heq (by simp)
  case _ heq =>
    simp only [saveOffer, statusToAction, validOffer, newOffer, hamt1,
      decide_True, if_true]
    exact ⟨_, rfl, rfl, rfl, rfl, rfl, rfl, rfl⟩
  case _ heq => rw [hauto] at heq; exact absurd heq (by simp)

theorem createOfferCore_none (offers : List Offer) (L : Listing)
    (lid bid amt : Nat) (msg : Option String) (now newId : Nat)
    (hauto : checkAutoResponse (newOffer newId lid bid L.seller amt msg L.price
        L.autoAcceptPrice L.minimumOffer now) = none)
    (hamt1 : 1 ≤ amt) :
    createOfferCore offers L lid bid amt msg now newId true =
      ⟨CreateResponse.created none,
        offers ++ [newOffer newId lid bid L.seller amt msg L.price
          L.autoAcceptPrice L.minimumOffer now],
        some L⟩ := by
  simp only [createOfferCore]
  split
  case _ heq => rw [hauto] at heq; exact absurd heq (by simp)
  case _ heq => rw [hauto] at heq; exact absurd heq (by simp)
  case _ heq =>
    simp [saveOffer, validOffer, newOffer, hamt1]

theorem createOfferCore_created (offers : List Offer) (L : Listing)
    (lid bid amt : Nat) (msg : Option String) (now newId : Nat)
    (hamt1 : 1 ≤ amt) :
    (createOfferCore offers L lid bid amt msg now newId true).resp
      = CreateResponse.created (checkAutoResponse (newOffer newId lid bid L.seller
          amt msg L.price L.autoAcceptPrice L.minimumOffer now)) ∧
    ∃ oN, (createOfferCore offers L lid bid amt msg now newId true).offers
        = offers ++ [oN] ∧ oN.buyer = bid ∧ oN.listing = lid ∧
      oN.status ≠ OfferStatus.withdrawn := by
  rcases hauto : checkAutoResponse (newOffer newId lid bid L.seller amt msg L.price
      L.autoAcceptPrice L.minimumOffer now) with _ | r
  · rw [createOfferCore_none offers L lid bid amt msg now newId hauto hamt1]
    exact ⟨rfl, _, rfl, rfl, rfl, by simp [newOffer]⟩
  · cases r with
    | accept =>
      obtain ⟨oS, heq, hst, _, hb, hl, _, _⟩ :=
        createOfferCore_accept offers L lid bid amt msg now newId hauto hamt1
      rw [heq]
      exact ⟨rfl, oS, rfl, hb, hl, by rw [hst]; simp⟩
    | decline =>
      obtain ⟨oS, heq, hst, _, hb, hl, _, _⟩ :=
        createOfferCore_decline offers L lid bid amt msg now newId hauto hamt1
      rw [heq]
      exact ⟨rfl, oS, rfl, hb, hl, by rw [hst]; simp⟩

theorem acceptOffer_commit (offers : List Offer) (L : Listing)
    (offerId actorId now : Nat) (notifyOk : Bool) (o : Offer)
    (hfind : offers.find? (fun x => decide (x.id = offerId)) = some o)
    (hseller : o.seller = actorId) (hpending : o.status = OfferStatus.pending)
    (hnexp : ¬ o.expiresAt < now) (hamt1 : 1 ≤ o.offerAmount) :
    acceptOffer offers (some L) offerId actorId now notifyOk =
      ⟨if notifyOk then AcceptResponse.success else AcceptResponse.errServer,
        declineSiblings (putOffer offers offerId
          { o with
            status := OfferStatus.accepted
            acceptedAt := some now
            history := o.history ++ [hookEntry { o with
              status := OfferStatus.accepted
              acceptedAt := some now } HistoryAction.accepted now] })
          L.id o.id now,
        some { L with
          status := ListingStatus.sold
          soldTo := some o.buyer
          soldPrice := some o.offerAmount
          soldAt := some now }⟩ := by
  simp only [acceptOffer]
  rw [hfind]
  cases notifyOk <;>
    simp [hseller, hpending, isExpired, hnexp, saveOffer, statusToAction,
      validOffer, hamt1]

theorem acceptOffer_expired (offers : List Offer) (L? : Option Listing)
    (offerId actorId now : Nat) (notifyOk : Bool) (o : Offer)
    (hfind : offers.find? (fun x => decide (x.id = offerId)) = some o)
    (hseller : o.seller = actorId) (hpending : o.status = OfferStatus.pending)
    (hexp : o.expiresAt < now) (hamt1 : 1 ≤ o.offerAmount) :
    acceptOffer offers L? offerId actorId now notifyOk =
      ⟨AcceptResponse.errExpired,
        putOffer offers offerId
          { o with
            status := OfferStatus.expired
            history := o.history ++ [hookEntry { o with status := OfferStatus.expired }
              HistoryAction.expired now] },
        L?⟩ := by
  simp only [acceptOffer]
  rw [hfind]
  simp [hseller, hpending, isExpired, hexp, saveOffer, statusToAction,
    validOffer, hamt1]

theorem counterOffer_valid (offers : List Offer) (offerId actorId cAmt : Nat)
    (cMsg : Option String) (now : Nat) (o : Offer)
    (hfind : offers.find? (fun x => decide (x.id = offerId)) = some o)
    (hseller : o.seller = actorId) (hpending : o.status = OfferStatus.pending)
    (hgt : o.offerAmount < cAmt) (hle : cAmt ≤ o.originalPrice)
    (hamt1 : 1 ≤ o.offerAmount) :
    counterOffer offers offerId actorId cAmt cMsg now true =
      ⟨CounterResponse.success,
        putOffer offers offerId
          { o with
            status := OfferStatus.countered
            counterOffer := some ⟨cAmt, cMsg, now⟩
            expiresAt := now + 48 * hourMs
            history := o.history ++ [hookEntry { o with
              status := OfferStatus.countered
              counterOffer := some ⟨cAmt, cMsg, now⟩
              expiresAt := now + 48 * hourMs } HistoryAction.countered now] }⟩ := by
  simp only [counterOffer]
  rw [hfind]
  simp [hseller, hpending, Nat.not_le.mpr hgt, Nat.not_lt.mpr hle, saveOffer,
    statusToAction, validOffer, hamt1]

theorem respondCounter_accept (offers : List Offer) (L : Listing)
    (offerId actorId now : Nat) (o : Offer) (c : CounterOffer)
    (hfind : offers.find? (fun x => decide (x.id = offerId)) = some o)
    (hbuyer : o.buyer = actorId) (hcount : o.status = OfferStatus.countered)
    (hco : o.counterOffer = some c) (hc1 : 1 ≤ c.amount) :
    respondCounter offers (some L) offerId actorId true now true =
      ⟨RespondResponse.counterAccepted,
        putOffer offers offerId
          { o with
            status := OfferStatus.accepted
            acceptedAt := some now
            offerAmount := c.amount
            history := o.history ++ [hookEntry { o with
              status := OfferStatus.accepted
              acceptedAt := some now
              offerAmount := c.amount } HistoryAction.accepted now] },
        some { L with
          status := ListingStatus.sold
          soldTo := some o.buyer
          soldPrice := some c.amount
          soldAt := some now }⟩ := by
  simp only [respondCounter]
  rw [hfind]
  simp [hbuyer, hcount, hco, saveOffer, statusToAction, validOffer, hc1]

/-! ## Concrete fixtures for witnesses and counterexamples -/

/-- An available listing: id 1, seller 1, price 100, accepts offers, no
thresholds. -/
def listingA : Listing :=
  { id := 1, seller := 1, price := 100, acceptsOffers := true,
    minimumOffer := none, autoAcceptPrice := none,
    status := ListingStatus.available, soldTo := none, soldPrice := none,
    soldAt := none }

/-- A pending 60 offer of buyer 2 on listing 1 (seller 1), created at
t = 1000, expiring at t = 200000. -/
def offerP : Offer :=
  { id := 5, listing := 1, buyer := 2, seller := 1, offerAmount := 60,
    originalPrice := 100, message := none, status := OfferStatus.pending,
    counterOffer := none, expiresAt := 200000, acceptedAt := none,
    declinedAt := none, autoAcceptPrice := none, minimumOffer := none,
    history := [], createdAt := 1000 }

/-- A second pending offer (55, buyer 3) on the same listing. -/
def offerSib : Offer := { offerP with id := 6, buyer := 3, offerAmount := 55 }

/-- Buyer 2's offer on listing 1 after the seller countered at 80. -/
def offerCtr : Offer :=
  { offerP with
    status := OfferStatus.countered
    counterOffer := some ⟨80, none, 1500⟩
    expiresAt := 1500 + 48 * hourMs
    history := [⟨HistoryAction.countered, some 80, none, 1500, 1⟩] }

/-! ## Claim C1 -/

/-- C1 counterexample: on an available, offer-accepting listing whose
`autoAcceptPrice` is set to `0`, an offer of 50 (which is ≥ 0) is NOT
auto-accepted: `checkAutoResponse` treats the falsy `0` as unset, the
creation succeeds with no auto-response, the offer stays `pending`, and
the listing is not marked sold — refuting, at this input, the claim
that whenever `autoAcceptPrice` is set and `offerAmount ≥
autoAcceptPrice` the offer ends `accepted` and the listing sold. -/
theorem c1_counterexample :
    (createOffer [] (some { listingA with autoAcceptPrice := some 0 })
        1 2 50 none 1000 10 true).resp = CreateResponse.created none ∧
    ((createOffer [] (some { listingA with autoAcceptPrice := some 0 })
        1 2 50 none 1000 10 true).offers.map fun o => o.status)
      = [OfferStatus.pending] ∧
    (createOffer [] (some { listingA with autoAcceptPrice := some 0 })
        1 2 50 none 1000 10 true).listing?
      = some { listingA with autoAcceptPrice := some 0 } := by
  decide

/-- C1 (amended): for every offer creation on an available,
offer-accepting listing (buyer ≠ seller, no blocking prior pending
offer) where `autoAcceptPrice` is set to a NONZERO value and
`offerAmount ≥ autoAcceptPrice`, the created offer's resulting status
is `accepted` and the listing is marked sold to the buyer with
`soldPrice` equal to `offerAmount`. -/
theorem c1_auto_accept_sells (offers : List Offer) (L : Listing)
    (lid bid amt now newId : Nat) (msg : Option String) (a : Nat)
    (havail : L.status = ListingStatus.available)
    (hacc : L.acceptsOffers = true)
    (hself : L.seller ≠ bid)
    (hnoex : offers.find? (existingPendingPred lid bid) = none)
    (haap : L.autoAcceptPrice = some a) (ha : a ≠ 0) (hge : a ≤ amt)
    (hamt1 : 1 ≤ amt) :
    ∃ oS, createOffer offers (some L) lid bid amt msg now newId true =
        ⟨CreateResponse.created (some AutoResponse.accept), offers ++ [oS],
          some { L with
            status := ListingStatus.sold
            soldTo := some bid
            soldPrice := some amt }⟩ ∧
      oS.status = OfferStatus.accepted ∧ oS.offerAmount = amt ∧
      oS.buyer = bid ∧ oS.listing = lid := by
  rw [createOffer_guards offers L lid bid amt msg now newId true havail hacc
    hself hnoex]
  have hauto : checkAutoResponse (newOffer newId lid bid L.seller amt msg L.price
      L.autoAcceptPrice L.minimumOffer now) = some AutoResponse.accept :=
    checkAutoResponse_accept _ a rfl (by simpa [newOffer] using haap) ha
      (by simpa [newOffer] using hge)
  obtain ⟨oS, heq, h1, h2, h3, h4, _, _⟩ :=
    createOfferCore_accept offers L lid bid amt msg now newId hauto hamt1
  exact ⟨oS, heq, h1, h2, h3, h4⟩

/-- C1 witness: the spec's example — price 100, `autoAcceptPrice = 90`,
buyer 2 offers 95 — is auto-accepted and the listing sold at 95. -/
theorem c1_witness :
    ∃ oS, createOffer [] (some { listingA with autoAcceptPrice := some 90 })
        1 2 95 none 1000 10 true =
        ⟨CreateResponse.created (some AutoResponse.accept), [] ++ [oS],
          some { { listingA with autoAcceptPrice := some 90 } with
            status := ListingStatus.sold
            soldTo := some 2
            soldPrice := some 95 }⟩ ∧
      oS.status = OfferStatus.accepted ∧ oS.offerAmount = 95 ∧
      oS.buyer = 2 ∧ oS.listing = 1 :=
  c1_auto_accept_sells [] { listingA with autoAcceptPrice := some 90 }
    1 2 95 1000 10 none 90 rfl rfl (by decide) rfl rfl (by decide) (by decide)
    (by decide)

/-! ## Claim C2 -/

/-- Listing with both thresholds set: auto-accept at 50, minimum 80. -/
def listingBoth : Listing :=
  { listingA with autoAcceptPrice := some 50, minimumOffer := some 80 }

/-- C2 counterexample: listing price 100, `autoAcceptPrice = 50`,
`minimumOffer = 80`; buyer 2 offers 60.  `offerAmount < minimumOffer`
holds, yet the created offer is auto-ACCEPTED (the auto-accept check
runs first) and the listing is marked sold — refuting the claim that
such a creation is always auto-declined with the listing unchanged. -/
theorem c2_counterexample :
    (createOffer [] (some listingBoth) 1 2 60 none 1000 10 true).resp
      = CreateResponse.created (some AutoResponse.accept) ∧
    ((createOffer [] (some listingBoth) 1 2 60 none 1000 10 true).offers.map
      fun o => o.status) = [OfferStatus.accepted] ∧
    ((createOffer [] (some listingBoth) 1 2 60 none 1000 10 true).listing?.map
      fun l => (l.status, l.soldPrice)) = some (ListingStatus.sold, some 60) := by
  decide

/-- C2 (amended): for every offer creation (guards as in C1) where
`minimumOffer` is set nonzero and `offerAmount < minimumOffer`, the
created offer is auto-declined and the listing left unchanged — UNLESS
`autoAcceptPrice` is also set nonzero with `offerAmount ≥
autoAcceptPrice`, since the auto-accept check has priority (that case
is excluded by hypothesis `hnoaa`). -/
theorem c2_auto_decline (offers : List Offer) (L : Listing)
    (lid bid amt now newId : Nat) (msg : Option String) (m : Nat)
    (havail : L.status = ListingStatus.available)
    (hacc : L.acceptsOffers = true)
    (hself : L.seller ≠ bid)
    (hnoex : offers.find? (existingPendingPred lid bid) = none)
    (hmo : L.minimumOffer = some m) (hm : m ≠ 0) (hlt : amt < m)
    (hnoaa : ∀ a, L.autoAcceptPrice = some a → a ≠ 0 → amt < a)
    (hamt1 : 1 ≤ amt) :
    ∃ oS, createOffer offers (some L) lid bid amt msg now newId true =
        ⟨CreateResponse.created (some AutoResponse.decline), offers ++ [oS],
          some L⟩ ∧
      oS.status = OfferStatus.declined ∧ oS.offerAmount = amt ∧
      oS.buyer = bid ∧ oS.listing = lid := by
  rw [createOffer_guards offers L lid bid amt msg now newId true havail hacc
    hself hnoex]
  have hauto : checkAutoResponse (newOffer newId lid bid L.seller amt msg L.price
      L.autoAcceptPrice L.minimumOffer now) = some AutoResponse.decline :=
    checkAutoResponse_decline _ m rfl (by simpa [newOffer] using hmo) hm
      (by simpa [newOffer] using hlt)
      (fun a hap h0 => by
        have : L.autoAcceptPrice = some a := by simpa [newOffer] using hap
        simpa [newOffer] using hnoaa a this h0)
  obtain ⟨oS, heq, h1, h2, h3, h4, _, _⟩ :=
    createOfferCore_decline offers L lid bid amt msg now newId hauto hamt1
  exact ⟨oS, heq, h1, h2, h3, h4⟩

/-- C2 witness: the spec's example — price 100, `minimumOffer = 50`, no
auto-accept threshold, buyer 2 offers 40 — is auto-declined with the
listing unchanged. -/
theorem c2_witness :
    ∃ oS, createOffer [] (some { listingA with minimumOffer := some 50 })
        1 2 40 none 1000 10 true =
        ⟨CreateResponse.created (some AutoResponse.decline), [] ++ [oS],
          some { listingA with minimumOffer := some 50 }⟩ ∧
      oS.status = OfferStatus.declined ∧ oS.offerAmount = 40 ∧
      oS.buyer = 2 ∧ oS.listing = 1 :=
  c2_auto_decline [] { listingA with minimumOffer := some 50 }
    1 2 40 1000 10 none 50 rfl rfl (by decide) rfl rfl (by decide) (by decide)
    (fun a hap _ => Option.noConfusion hap) (by decide)

/-! ## Claim C3 -/

/-- C3: when a seller accepts a pending, unexpired offer on listing L,
the request succeeds, every other offer on L whose status is `pending`
transitions to `declined` (the record written for it differs only in
`status` and `declinedAt`), and L ends with status `sold` and exactly
one `soldTo`/`soldPrice` pair, with `soldPrice` equal to the accepted
offer's `offerAmount`. -/
theorem c3_accept_cascade (offers : List Offer) (L : Listing)
    (offerId actorId now : Nat) (o : Offer)
    (hfind : offers.find? (fun x => decide (x.id = offerId)) = some o)
    (hseller : o.seller = actorId) (hpending : o.status = OfferStatus.pending)
    (hnexp : ¬ o.expiresAt < now) (hamt1 : 1 ≤ o.offerAmount) :
    (acceptOffer offers (some L) offerId actorId now true).resp
        = AcceptResponse.success ∧
    (acceptOffer offers (some L) offerId actorId now true).listing?
        = some { L with
          status := ListingStatus.sold
          soldTo := some o.buyer
          soldPrice := some o.offerAmount
          soldAt := some now } ∧
    (∀ p ∈ offers, p.id ≠ o.id → p.listing = L.id →
      p.status = OfferStatus.pending →
      { p with status := OfferStatus.declined, declinedAt := some now }
        ∈ (acceptOffer offers (some L) offerId actorId now true).offers) := by
  rw [acceptOffer_commit offers L offerId actorId now true o hfind hseller
    hpending hnexp hamt1]
  refine ⟨rfl, rfl, ?_⟩
  intro p hp hne hl hs
  have hido : o.id = offerId := find?_id_eq offers offerId o hfind
  have hp1 : p ∈ putOffer offers offerId
      { o with
        status := OfferStatus.accepted
        acceptedAt := some now
        history := o.history ++ [hookEntry { o with
          status := OfferStatus.accepted
          acceptedAt := some now } HistoryAction.accepted now] } :=
    putOffer_mem_other offers offerId _ p hp (hido ▸ hne)
  exact declineSiblings_mem_decline _ L.id o.id now p hp1 hl hs hne

/-- C3 witness: accepting buyer 2's pending 60 offer (id 5) on listing 1
succeeds, sells the listing at 60 to buyer 2, and the sibling pending
offer (id 6) is declined. -/
theorem c3_witness :
    (acceptOffer [offerP, offerSib] (some listingA) 5 1 2000 true).resp
        = AcceptResponse.success ∧
    (acceptOffer [offerP, offerSib] (some listingA) 5 1 2000 true).listing?
        = some { listingA with
          status := ListingStatus.sold
          soldTo := some 2
          soldPrice := some 60
          soldAt := some 2000 } ∧
    { offerSib with status := OfferStatus.declined, declinedAt := some 2000 }
      ∈ (acceptOffer [offerP, offerSib] (some listingA) 5 1 2000 true).offers :=
  ⟨(c3_accept_cascade [offerP, offerSib] listingA 5 1 2000 offerP rfl rfl rfl
      (by decide) (by decide)).1,
   (c3_accept_cascade [offerP, offerSib] listingA 5 1 2000 offerP rfl rfl rfl
      (by decide) (by decide)).2.1,
   (c3_accept_cascade [offerP, offerSib] listingA 5 1 2000 offerP rfl rfl rfl
      (by decide) (by decide)).2.2 offerSib (by decide) (by decide) (by decide)
      (by decide)⟩

/-! ## Claim C4 -/

/-- C4 counterexample: buyer 2 has a `countered` (hence still active)
offer on listing 1, created less than 24 hours ago.  A new creation by
the same buyer on the same listing is NOT rejected with a wait-time
message: it succeeds, leaving one `countered` and one `pending` offer
for the same (listing, buyer) pair — refuting both the at-most-one
pending-or-countered invariant and the claimed rejection (the
existing-offer check only looks for status `pending`). -/
theorem c4_counterexample :
    offerCtr.status = OfferStatus.countered ∧ offerCtr.listing = 1 ∧
    offerCtr.buyer = 2 ∧ 3601000 - offerCtr.createdAt < 24 * hourMs ∧
    (createOffer [offerCtr] (some listingA) 1 2 70 none 3601000 10 true).resp
      = CreateResponse.created none ∧
    ((createOffer [offerCtr] (some listingA) 1 2 70 none 3601000 10 true).offers.map
      fun q => (q.listing, q.buyer, q.status))
      = [(1, 2, OfferStatus.countered), (1, 2, OfferStatus.pending)] := by
  decide

/-- C4 (amended): only a prior PENDING offer by the same buyer on the
same listing blocks creation (a `countered` one does not, so the
pending-or-countered uniqueness of the original claim fails): if such a
pending offer exists and less than 24 hours have elapsed since its
creation, the request is rejected with the wait-time message and no
state changes; if at least 24 hours have elapsed, the prior offer is
set to `withdrawn` (with a history entry) and the new offer is then
created. -/
theorem c4_pending_cooldown (offers : List Offer) (L : Listing)
    (lid bid amt now newId : Nat) (msg : Option String) (e : Offer)
    (havail : L.status = ListingStatus.available)
    (hacc : L.acceptsOffers = true)
    (hself : L.seller ≠ bid)
    (hex : offers.find? (existingPendingPred lid bid) = some e)
    (hamt1 : 1 ≤ amt) (he1 : 1 ≤ e.offerAmount) :
    (now - e.createdAt < 24 * hourMs →
      createOffer offers (some L) lid bid amt msg now newId true =
        ⟨CreateResponse.errWait (waitHoursLeft (now - e.createdAt)), offers,
          some L⟩) ∧
    (¬ now - e.createdAt < 24 * hourMs →
      (∃ r, (createOffer offers (some L) lid bid amt msg now newId true).resp
          = CreateResponse.created r) ∧
      { e with
        status := OfferStatus.withdrawn
        history := e.history ++ [hookEntry { e with
          status := OfferStatus.withdrawn } HistoryAction.withdrawn now] }
        ∈ (createOffer offers (some L) lid bid amt msg now newId true).offers ∧
      (∃ oN, (createOffer offers (some L) lid bid amt msg now newId true).offers
          = putOffer offers e.id { e with
              status := OfferStatus.withdrawn
              history := e.history ++ [hookEntry { e with
                status := OfferStatus.withdrawn } HistoryAction.withdrawn now] }
            ++ [oN] ∧
        oN.buyer = bid ∧ oN.listing = lid ∧
        oN.status ≠ OfferStatus.withdrawn)) := by
  constructor
  · intro h24
    simp [createOffer, havail, hacc, hself, hex, h24]
  · intro h24
    have hred : createOffer offers (some L) lid bid amt msg now newId true
        = createOfferCore (putOffer offers e.id { e with
            status := OfferStatus.withdrawn
            history := e.history ++ [hookEntry { e with
              status := OfferStatus.withdrawn } HistoryAction.withdrawn now] })
          L lid bid amt msg now newId true := by
      simp [createOffer, havail, hacc, hself, hex, h24, saveOffer,
        statusToAction, validOffer, he1, putOffer]
    rw [hred]
    obtain ⟨hresp, oN, hoffers, hb, hl, hw⟩ :=
      createOfferCore_created (putOffer offers e.id _) L lid bid amt msg now
        newId hamt1
    refine ⟨⟨_, hresp⟩, ?_, ⟨oN, hoffers, hb, hl, hw⟩⟩
    rw [hoffers]
    exact List.mem_append_left _
      (putOffer_mem_self offers e.id e _
        (List.mem_of_find?_eq_some hex) rfl)

/-- C4 witness: buyer 2 already has a pending offer (id 5, created at
t = 1000) on listing 1; a second offer one hour later is rejected with
a 23-hours-left wait message and nothing changes. -/
theorem c4_witness :
    createOffer [offerP] (some listingA) 1 2 70 none 3601000 10 true =
      ⟨CreateResponse.errWait 23, [offerP], some listingA⟩ :=
  (c4_pending_cooldown [offerP] listingA 1 2 70 3601000 10 none offerP rfl rfl
    (by decide) rfl (by decide) (by decide)).1 (by decide)

/-! ## Claim C5 -/

/-- C5 counterexample: accepting offer 5 on listing 1 transitions the
sibling offer 6 from `pending` to `declined` through the bulk update,
yet offer 6's history stays empty — a successful status transition that
appends no history entry, refuting the claim that every transition
(including sibling declines) appends exactly one. -/
theorem c5_counterexample :
    offerSib.status = OfferStatus.pending ∧ offerSib.history.length = 0 ∧
    ((acceptOffer [offerP, offerSib] (some listingA) 5 1 2000 true).offers.map
      fun q => (q.id, q.status, q.history.length))
      = [(5, OfferStatus.accepted, 1), (6, OfferStatus.declined, 0)] := by
  decide

/-- C5 (amended): on a seller accept, the accepted offer itself is saved
through the document middleware and gains exactly one history entry,
but each sibling pending offer declined by the `Offer.updateMany` bulk
update has its status changed with NO history entry appended (query
updates bypass the pre-save hook), so history length does not increase
by one for those transitions. -/
theorem c5_accept_history (offers : List Offer) (L : Listing)
    (offerId actorId now : Nat) (o : Offer)
    (hfind : offers.find? (fun x => decide (x.id = offerId)) = some o)
    (hseller : o.seller = actorId) (hpending : o.status = OfferStatus.pending)
    (hnexp : ¬ o.expiresAt < now) (hamt1 : 1 ≤ o.offerAmount) :
    ({ o with
        status := OfferStatus.accepted
        acceptedAt := some now
        history := o.history ++ [hookEntry { o with
          status := OfferStatus.accepted
          acceptedAt := some now } HistoryAction.accepted now] }
      ∈ (acceptOffer offers (some L) offerId actorId now true).offers ∧
      (o.history ++ [hookEntry { o with
        status := OfferStatus.accepted
        acceptedAt := some now } HistoryAction.accepted now]).length
        = o.history.length + 1) ∧
    (∀ p ∈ offers, p.id ≠ o.id → p.listing = L.id →
      p.status = OfferStatus.pending →
      { p with status := OfferStatus.declined, declinedAt := some now }
        ∈ (acceptOffer offers (some L) offerId actorId now true).offers ∧
      ({ p with status := OfferStatus.declined, declinedAt := some now }
          : Offer).history = p.history) := by
  rw [acceptOffer_commit offers L offerId actorId now true o hfind hseller
    hpending hnexp hamt1]
  have hido : o.id = offerId := find?_id_eq offers offerId o hfind
  constructor
  · constructor
    · apply declineSiblings_mem_other
      · exact putOffer_mem_self offers offerId o _
          (find?_mem offers offerId o hfind) hido
      · intro hcond
        exact absurd hcond.2.1 (by simp)
    · simp
  · intro p hp hne hl hs
    have hp1 : p ∈ putOffer offers offerId
        { o with
          status := OfferStatus.accepted
          acceptedAt := some now
          history := o.history ++ [hookEntry { o with
            status := OfferStatus.accepted
            acceptedAt := some now } HistoryAction.accepted now] } :=
      putOffer_mem_other offers offerId _ p hp (hido ▸ hne)
    exact ⟨declineSiblings_mem_decline _ L.id o.id now p hp1 hl hs hne, rfl⟩

/-- C5 witness: in the concrete two-offer scenario, the accepted offer 5
carries exactly one new history entry while the declined sibling 6
keeps its (empty) history. -/
theorem c5_witness :
    { offerP with
      status := OfferStatus.accepted
      acceptedAt := some 2000
      history := offerP.history ++ [hookEntry { offerP with
        status := OfferStatus.accepted
        acceptedAt := some 2000 } HistoryAction.accepted 2000] }
      ∈ (acceptOffer [offerP, offerSib] (some listingA) 5 1 2000 true).offers ∧
    { offerSib with status := OfferStatus.declined, declinedAt := some 2000 }
      ∈ (acceptOffer [offerP, offerSib] (some listingA) 5 1 2000 true).offers ∧
    ({ offerSib with status := OfferStatus.declined, declinedAt := some 2000 }
        : Offer).history = offerSib.history :=
  ⟨(c5_accept_history [offerP, offerSib] listingA 5 1 2000 offerP rfl rfl rfl
      (by decide) (by decide)).1.1,
   ((c5_accept_history [offerP, offerSib] listingA 5 1 2000 offerP rfl rfl rfl
      (by decide) (by decide)).2 offerSib (by decide) (by decide) (by decide)
      (by decide)).1,
   ((c5_accept_history [offerP, offerSib] listingA 5 1 2000 offerP rfl rfl rfl
      (by decide) (by decide)).2 offerSib (by decide) (by decide) (by decide)
      (by decide)).2⟩

/-! ## Claim C6 -/

/-- C6 (evaluation at the failing input): creating an offer of 60 on
the available, threshold-free listing succeeds with no auto-response
and persists the offer with status `pending` — but with an EMPTY
history, not a seeded `created` entry.  The schema default `pending`
does not mark the status path modified, so the pre-save hook never
fires at creation; moreover the hook writes `action := status`, and no
status value maps to the `created` history action, so no code path can
ever produce the `created` entry the claim (and the schema's own enum)
describe. -/
theorem c6_pending_creation_no_created_entry :
    (createOffer [] (some listingA) 1 2 60 none 1000 10 true).resp
      = CreateResponse.created none ∧
    ((createOffer [] (some listingA) 1 2 60 none 1000 10 true).offers.map
      fun o => (o.status, o.history)) = [(OfferStatus.pending, [])] ∧
    (∀ s : OfferStatus, statusToAction s ≠ some HistoryAction.created) := by
  decide

/-! ## Claim C7 -/

/-- C7: a seller counter on a pending offer with `counterAmount ≤
offerAmount` or `counterAmount > originalPrice` is rejected with the
matching validation error and the offers collection is left unchanged
(so the offer keeps status `pending`, no `counterOffer`, and its
original `expiresAt`). -/
theorem c7_counter_rejected (offers : List Offer)
    (offerId actorId cAmt : Nat) (cMsg : Option String) (now : Nat)
    (notifyOk : Bool) (o : Offer)
    (hfind : offers.find? (fun x => decide (x.id = offerId)) = some o)
    (hseller : o.seller = actorId) (hpending : o.status = OfferStatus.pending)
    (hbad : cAmt ≤ o.offerAmount ∨ o.originalPrice < cAmt) :
    ((counterOffer offers offerId actorId cAmt cMsg now notifyOk).resp
        = CounterResponse.errTooLow ∨
      (counterOffer offers offerId actorId cAmt cMsg now notifyOk).resp
        = CounterResponse.errExceedsPrice) ∧
    (counterOffer offers offerId actorId cAmt cMsg now notifyOk).offers
      = offers := by
  simp only [counterOffer]
  rw [hfind]
  rcases hbad with h | h
  · simp [hseller, hpending, h]
  · by_cases h2 : cAmt ≤ o.offerAmount
    · simp [hseller, hpending, h2]
    · simp [hseller, hpending, h2, h]

/-- C7 witness: countering the pending 60 offer at 60 (not strictly
higher) is rejected and the stored offers are unchanged. -/
theorem c7_witness :
    ((counterOffer [offerP] 5 1 60 none 2000 true).resp
        = CounterResponse.errTooLow ∨
      (counterOffer [offerP] 5 1 60 none 2000 true).resp
        = CounterResponse.errExceedsPrice) ∧
    (counterOffer [offerP] 5 1 60 none 2000 true).offers = [offerP] :=
  c7_counter_rejected [offerP] 5 1 60 none 2000 true offerP rfl rfl rfl
    (Or.inl (by decide))

/-! ## Claim C8 -/

/-- C8: a valid seller counter (`offerAmount < counterAmount ≤
originalPrice`) on a pending offer stores the counter: status becomes
`countered`, `counterOffer` is set, and `expiresAt` is reset to 48
hours after the counter time; if the buyer then accepts the counter,
the offer ends `accepted` with `offerAmount` updated to the counter
amount and the listing is marked sold at that amount. -/
theorem c8_counter_then_accept (offers : List Offer) (L : Listing)
    (offerId sellerId buyerId cAmt : Nat) (cMsg : Option String)
    (now1 now2 : Nat) (o : Offer)
    (hfind : offers.find? (fun x => decide (x.id = offerId)) = some o)
    (hseller : o.seller = sellerId) (hbuyer : o.buyer = buyerId)
    (hpending : o.status = OfferStatus.pending)
    (hgt : o.offerAmount < cAmt) (hle : cAmt ≤ o.originalPrice)
    (hamt1 : 1 ≤ o.offerAmount) :
    (counterOffer offers offerId sellerId cAmt cMsg now1 true).resp
        = CounterResponse.success ∧
    (counterOffer offers offerId sellerId cAmt cMsg now1 true).offers.find?
        (fun x => decide (x.id = offerId))
      = some { o with
          status := OfferStatus.countered
          counterOffer := some ⟨cAmt, cMsg, now1⟩
          expiresAt := now1 + 48 * hourMs
          history := o.history ++ [hookEntry { o with
            status := OfferStatus.countered
            counterOffer := some ⟨cAmt, cMsg, now1⟩
            expiresAt := now1 + 48 * hourMs } HistoryAction.countered now1] } ∧
    (respondCounter (counterOffer offers offerId sellerId cAmt cMsg now1 true).offers
        (some L) offerId buyerId true now2 true).resp
      = RespondResponse.counterAccepted ∧
    (∃ oA, oA ∈ (respondCounter
          (counterOffer offers offerId sellerId cAmt cMsg now1 true).offers
          (some L) offerId buyerId true now2 true).offers ∧
      oA.id = o.id ∧ oA.status = OfferStatus.accepted ∧
      oA.offerAmount = cAmt ∧ oA.acceptedAt = some now2) ∧
    (respondCounter (counterOffer offers offerId sellerId cAmt cMsg now1 true).offers
        (some L) offerId buyerId true now2 true).listing?
      = some { L with
          status := ListingStatus.sold
          soldTo := some buyerId
          soldPrice := some cAmt
          soldAt := some now2 } := by
  have hido : o.id = offerId := find?_id_eq offers offerId o hfind
  have hc1 : 1 ≤ cAmt := le_of_lt (Nat.lt_of_le_of_lt hamt1 hgt)
  rw [counterOffer_valid offers offerId sellerId cAmt cMsg now1 o hfind hseller
    hpending hgt hle hamt1]
  have hfind2 := find?_putOffer offers offerId o
    { o with
      status := OfferStatus.countered
      counterOffer := some ⟨cAmt, cMsg, now1⟩
      expiresAt := now1 + 48 * hourMs
      history := o.history ++ [hookEntry { o with
        status := OfferStatus.countered
        counterOffer := some ⟨cAmt, cMsg, now1⟩
        expiresAt := now1 + 48 * hourMs } HistoryAction.countered now1] }
    hfind hido
  rw [respondCounter_accept _ L offerId buyerId now2 _ ⟨cAmt, cMsg, now1⟩ hfind2
    hbuyer rfl rfl hc1]
  refine ⟨rfl, hfind2, rfl, ?_, by rw [hbuyer]⟩
  refine ⟨_, putOffer_mem_self _ offerId _ _
    (putOffer_mem_self offers offerId o _
      (find?_mem offers offerId o hfind) hido) hido, hido ▸ rfl, rfl, rfl, rfl⟩

/-- C8 witness: the spec example — listing price 100, buyer 2's 60 offer
countered by seller 1 at 80 and then accepted by the buyer — ends with
the offer accepted at 80 and the listing sold at 80. -/
theorem c8_witness :
    (counterOffer [offerP] 5 1 80 none 2000 true).resp
        = CounterResponse.success ∧
    (respondCounter (counterOffer [offerP] 5 1 80 none 2000 true).offers
        (some listingA) 5 2 true 3000 true).resp
      = RespondResponse.counterAccepted ∧
    (∃ oA, oA ∈ (respondCounter (counterOffer [offerP] 5 1 80 none 2000 true).offers
          (some listingA) 5 2 true 3000 true).offers ∧
      oA.id = 5 ∧ oA.status = OfferStatus.accepted ∧
      oA.offerAmount = 80 ∧ oA.acceptedAt = some 3000) ∧
    (respondCounter (counterOffer [offerP] 5 1 80 none 2000 true).offers
        (some listingA) 5 2 true 3000 true).listing?
      = some { listingA with
          status := ListingStatus.sold
          soldTo := some 2
          soldPrice := some 80
          soldAt := some 3000 } := by
  obtain ⟨h1, _, h3, h4, h5⟩ := c8_counter_then_accept [offerP] listingA 5 1 2
    80 none 2000 3000 offerP rfl rfl rfl rfl (by decide) (by decide) (by decide)
  exact ⟨h1, h3, h4, h5⟩

/-! ## Claim C9 -/

/-- C9 counterexample: a seller accept in which only the final
notification write fails returns the generic failure response (HTTP
500), NOT success — while the offer transition and listing sale are
already committed — refuting the claim that the operation still
reports success to the caller. -/
theorem c9_counterexample :
    (acceptOffer [offerP] (some listingA) 5 1 2000 false).resp
        = AcceptResponse.errServer ∧
    (acceptOffer [offerP] (some listingA) 5 1 2000 false).resp
        ≠ AcceptResponse.success ∧
    ((acceptOffer [offerP] (some listingA) 5 1 2000 false).offers.map
      fun q => q.status) = [OfferStatus.accepted] ∧
    ((acceptOffer [offerP] (some listingA) 5 1 2000 false).listing?.map
      fun l => (l.status, l.soldPrice)) = some (ListingStatus.sold, some 60) := by
  decide

/-- C9 (amended): if the notification write of a seller accept fails
after the primary offer write succeeded, the transition IS committed
and never rolled back — the offer stays `accepted` and the listing
sold — but the catch handler reports the generic failure response to
the caller rather than success (the failure is logged, not
swallowed). -/
theorem c9_notify_failure_commits (offers : List Offer) (L : Listing)
    (offerId actorId now : Nat) (o : Offer)
    (hfind : offers.find? (fun x => decide (x.id = offerId)) = some o)
    (hseller : o.seller = actorId) (hpending : o.status = OfferStatus.pending)
    (hnexp : ¬ o.expiresAt < now) (hamt1 : 1 ≤ o.offerAmount) :
    (acceptOffer offers (some L) offerId actorId now false).resp
        = AcceptResponse.errServer ∧
    { o with
      status := OfferStatus.accepted
      acceptedAt := some now
      history := o.history ++ [hookEntry { o with
        status := OfferStatus.accepted
        acceptedAt := some now } HistoryAction.accepted now] }
      ∈ (acceptOffer offers (some L) offerId actorId now false).offers ∧
    (acceptOffer offers (some L) offerId actorId now false).listing?
      = some { L with
          status := ListingStatus.sold
          soldTo := some o.buyer
          soldPrice := some o.offerAmount
          soldAt := some now } := by
  rw [acceptOffer_commit offers L offerId actorId now false o hfind hseller
    hpending hnexp hamt1]
  have hido : o.id = offerId := find?_id_eq offers offerId o hfind
  refine ⟨rfl, ?_, rfl⟩
  apply declineSiblings_mem_other
  · exact putOffer_mem_self offers offerId o _
      (find?_mem offers offerId o hfind) hido
  · intro hcond
    exact absurd hcond.2.1 (by simp)

/-- C9 witness: concrete instance of the amended claim — notification
failure yields the failure response while offer 5 is committed as
accepted and listing 1 sold at 60. -/
theorem c9_witness :
    (acceptOffer [offerP] (some listingA) 5 1 2000 false).resp
        = AcceptResponse.errServer ∧
    { offerP with
      status := OfferStatus.accepted
      acceptedAt := some 2000
      history := offerP.history ++ [hookEntry { offerP with
        status := OfferStatus.accepted
        acceptedAt := some 2000 } HistoryAction.accepted 2000] }
      ∈ (acceptOffer [offerP] (some listingA) 5 1 2000 false).offers ∧
    (acceptOffer [offerP] (some listingA) 5 1 2000 false).listing?
      = some { listingA with
          status := ListingStatus.sold
          soldTo := some 2
          soldPrice := some 60
          soldAt := some 2000 } :=
  c9_notify_failure_commits [offerP] listingA 5 1 2000 offerP rfl rfl rfl
    (by decide) (by decide)

/-! ## Claim C10 -/

/-- C10: a seller accept on a pending offer whose `expiresAt` is in the
past is rejected with the expired error, and the rejection is not
state-preserving: the offer is persisted with status `expired` and one
appended history entry before the error is returned. -/
theorem c10_expired_accept_persists (offers : List Offer)
    (L? : Option Listing) (offerId actorId now : Nat) (notifyOk : Bool)
    (o : Offer)
    (hfind : offers.find? (fun x => decide (x.id = offerId)) = some o)
    (hseller : o.seller = actorId) (hpending : o.status = OfferStatus.pending)
    (hexp : o.expiresAt < now) (hamt1 : 1 ≤ o.offerAmount) :
    (acceptOffer offers L? offerId actorId now notifyOk).resp
        = AcceptResponse.errExpired ∧
    { o with
      status := OfferStatus.expired
      history := o.history ++ [hookEntry { o with
        status := OfferStatus.expired } HistoryAction.expired now] }
      ∈ (acceptOffer offers L? offerId actorId now notifyOk).offers := by
  rw [acceptOffer_expired offers L? offerId actorId now notifyOk o hfind
    hseller hpending hexp hamt1]
  exact ⟨rfl, putOffer_mem_self offers offerId o _
    (find?_mem offers offerId o hfind) (find?_id_eq offers offerId o hfind)⟩

/-- C10 witness: accepting offer 5 (expires at t = 200000) at
t = 999999999 is rejected as expired and the offer is persisted as
`expired` with one appended history entry. -/
theorem c10_witness :
    (acceptOffer [offerP] (some listingA) 5 1 999999999 true).resp
        = AcceptResponse.errExpired ∧
    { offerP with
      status := OfferStatus.expired
      history := offerP.history ++ [hookEntry { offerP with
        status := OfferStatus.expired } HistoryAction.expired 999999999] }
      ∈ (acceptOffer [offerP] (some listingA) 5 1 999999999 true).offers :=
  c10_expired_accept_persists [offerP] (some listingA) 5 1 999999999 true
    offerP rfl rfl rfl (by decide) (by decide)

end Marketplace
